import Mathlib

/- Shallow embedding of the ingestion / monitoring / retraining pipeline of
the python exporter (src/app/python-exporter/main.py and ml_model.py).

Numeric feature and statistic values are modelled as rationals; the
scikit-learn classifier is abstracted as an environment providing a fit
function and a train/test split function (the split's randomness is part of
the environment).  Python exceptions are modelled as an `Option String`
error component; counters and gauges are natural-number fields of the state;
Slack/stdout alerts are modelled as an append-only list of structured
`Alert` values carrying the data the source interpolates into the message. -/

namespace PromLab

/-- One labeled record: a feature vector and a categorical label
(the shape `{features: [...], label: ...}` of the remote payload). -/
structure Record where
  features : List ℚ
  label : ℤ
  deriving DecidableEq, Inhabited

/-- A batch: one fetched group of labeled records. -/
abbrev Batch := List Record

/-- Structured stand-ins for the alert messages sent by `send_slack_alert`
(main.py) and `send_alert` (ml_model.py); each constructor carries the data
the source interpolates into the message text. -/
inductive Alert where
  | unavailable503 : Alert
  | fetchError : Alert
  | featureAdded : Alert
  | featureRemoved : Alert
  | featureAddedVals : Finset ℚ → Alert
  | featureRemovedVals : Finset ℚ → Alert
  | lowAccuracy : ℚ → Alert
  | lowAccuracyThreshold : ℚ → Alert
  | drift : Alert
  deriving DecidableEq

/-- Decidable equality for `Except` (used to evaluate embedded raise
points on concrete inputs). -/
instance instDecEqExcept {ε α : Type} [DecidableEq ε] [DecidableEq α] :
    DecidableEq (Except ε α) := fun x y =>
  match x, y with
  | Except.error a, Except.error b =>
    if h : a = b then isTrue (h ▸ rfl) else isFalse (fun hc => h (by cases hc; rfl))
  | Except.error _, Except.ok _ => isFalse (fun hc => by cases hc)
  | Except.ok _, Except.error _ => isFalse (fun hc => by cases hc)
  | Except.ok a, Except.ok b =>
    if h : a = b then isTrue (h ▸ rfl) else isFalse (fun hc => h (by cases hc; rfl))

/-- The fitted classifier abstraction: a fitted sklearn model knows the
number of features it was fit on and classifies a vector of that width. -/
structure Model where
  width : ℕ
  classify : List ℚ → ℤ

/-- `model.predict` on a single vector: sklearn raises when the input width
does not match the number of features the model was fitted with. -/
def Model.predictE (m : Model) (v : List ℚ) : Except String ℤ :=
  if v.length = m.width then Except.ok (m.classify v)
  else Except.error "X has a different number of features than the model"

/-- `model.predict` on a list of vectors (raises at the first bad row). -/
def predictListE (m : Model) : List (List ℚ) → Except String (List ℤ)
  | [] => Except.ok []
  | v :: rest =>
    match m.predictE v with
    | Except.error e => Except.error e
    | Except.ok n =>
      match predictListE m rest with
      | Except.error e => Except.error e
      | Except.ok ns => Except.ok (n :: ns)

/-- `accuracy_score y_true y_pred`: the fraction of positions where the
prediction matches the truth. -/
def accuracyScore (yTrue yPred : List ℤ) : ℚ :=
  (((yTrue.zip yPred).countP (fun p => decide (p.1 = p.2)) : ℚ)) / (yTrue.length : ℚ)

/-- The environment abstracting scikit-learn: `fit` produces a fitted model
from data, and `split ts X y` is `train_test_split(X, y, test_size=ts)`
returning `(X_train, X_test, y_train, y_test)`; the randomness of the split
is folded into the environment. -/
structure Env where
  fit : List (List ℚ) → List ℤ → Model
  split : ℚ → List (List ℚ) → List ℤ →
    List (List ℚ) × List (List ℚ) × List ℤ × List ℤ

/-! ### The prediction endpoint (main.py `predict`) -/

/-- Value of a decimal digit character. -/
def digitVal? (c : Char) : Option ℕ :=
  if c.isDigit then some (c.toNat - 48) else none

/-- Accumulate a run of decimal digits; fails on a non-digit. -/
def parseDigitsAux : List Char → ℕ → Option ℕ
  | [], acc => some acc
  | c :: rest, acc =>
    match digitVal? c with
    | some d => parseDigitsAux rest (acc * 10 + d)
    | none => none

/-- A non-empty all-digit string as a natural number. -/
def parseNatDigits (cs : List Char) : Option ℕ :=
  if cs.isEmpty then none else parseDigitsAux cs 0

/-- Strip leading and trailing whitespace (Python `float` accepts it). -/
def trimWs (cs : List Char) : List Char :=
  ((cs.dropWhile Char.isWhitespace).reverse.dropWhile Char.isWhitespace).reverse

/-- `str.split(sep)` on character lists: the empty input yields one empty
part, exactly as in Python. -/
def splitChar (sep : Char) : List Char → List (List Char)
  | [] => [[]]
  | c :: rest =>
    let r := splitChar sep rest
    if c = sep then [] :: r
    else
      match r with
      | [] => [[c]]
      | p :: ps => (c :: p) :: ps

/-- Python `float(x)` restricted to plain signed decimal literals
(optional sign, digits, optional single point), returning the exact
rational value; anything else is a parse failure (`ValueError`). -/
def parseFloatQ (cs0 : List Char) : Option ℚ :=
  let cs1 := trimWs cs0
  let sgncs : ℚ × List Char :=
    match cs1 with
    | '-' :: rest => (-1, rest)
    | '+' :: rest => (1, rest)
    | _ => (1, cs1)
  match splitChar '.' sgncs.2 with
  | [a] => (parseNatDigits a).map (fun n => sgncs.1 * (n : ℚ))
  | [a, b] =>
    if a.isEmpty && b.isEmpty then none
    else
      match (if a.isEmpty then some 0 else parseNatDigits a),
            (if b.isEmpty then some 0 else parseNatDigits b) with
      | some ip, some fp =>
        some (sgncs.1 * ((ip : ℚ) + (fp : ℚ) / (10 : ℚ) ^ b.length))
      | _, _ => none
  | _ => none

/-- The result payload of the `/predict` endpoint: either
`{"prediction": int(...)}` or `{"error": str(e)}`. -/
inductive PredictResult where
  | prediction : ℤ → PredictResult
  | errorPayload : String → PredictResult
  deriving DecidableEq

/-- `[float(x) for x in parts]`: raises (`Except.error`) at the first part
that does not parse. -/
def parseFeats : List (List Char) → Except String (List ℚ)
  | [] => Except.ok []
  | cs :: rest =>
    match parseFloatQ cs with
    | none => Except.error "could not convert string to float"
    | some q =>
      match parseFeats rest with
      | Except.error e => Except.error e
      | Except.ok qs => Except.ok (q :: qs)

/-- The body of main.py `predict`: everything inside the `try` block, with
every Python raise modelled as an `Except.error`. -/
def predictBody (m : Model) (features : String) : Except String ℤ :=
  match parseFeats (splitChar ',' features.toList) with
  | Except.error e => Except.error e
  | Except.ok feats => m.predictE feats

/-- main.py `predict`: the surrounding `try/except` maps any raise to the
structured error payload. -/
def predict (m : Model) (features : String) : PredictResult :=
  match predictBody m features with
  | Except.ok n => PredictResult.prediction n
  | Except.error e => PredictResult.errorPayload e

/-! ### State and cycle of main.py `ingestion_and_retrain_loop` -/

/-- The global mutable state of main.py: the model snapshot, the training
history, the schema baseline (a feature count), and the Prometheus
counters/gauges.  main.py declares `distribution_drift_detected` but never
writes it. -/
structure MainState where
  model : Model
  X_history : List (List ℚ)
  y_history : List ℤ
  previous_features_count : ℕ
  records_processed : ℕ
  datalake_unavailable : ℕ
  retrain_count : ℕ
  model_accuracy : Option ℚ
  feature_added : ℕ
  feature_removed : ℕ
  distribution_drift_detected : ℕ
  alerts : List Alert

/-- The outcome of one `requests.get(DATALAKE_URL)` plus `resp.json()`:
an explicit 503 status, a connection/timeout raise, a JSON decode raise,
or a parsed list of records. -/
inductive FetchOutcome where
  | status503 : FetchOutcome
  | netError : FetchOutcome
  | jsonError : FetchOutcome
  | payload : Batch → FetchOutcome

/-- main.py lines 99-109, the retraining section of the cycle, on the state
whose history already includes the current batch: fit on a train split when
`len(X_history) > 20`, publish held-out accuracy, and below the 0.8
threshold increment the retrain counter, alert with the observed accuracy
and refit on the whole history.  The error component models a raise inside
the section (here: `model.predict` on the test split), which the loop-level
`except` will catch; the state mutated so far survives such a raise. -/
def retrainSection (env : Env) (s : MainState) : MainState × Option String :=
  if 20 < s.X_history.length then
    let q := env.split (1/5) s.X_history s.y_history
    let m1 := env.fit q.1 q.2.2.1
    match predictListE m1 q.2.1 with
    | Except.error e => ({ s with model := m1 }, some e)
    | Except.ok preds =>
      let acc := accuracyScore q.2.2.2 preds
      let s4 := { s with model := m1, model_accuracy := some acc }
      if acc < 4/5 then
        ({ s4 with
            retrain_count := s4.retrain_count + 1,
            alerts := s4.alerts ++ [Alert.lowAccuracy acc],
            model := env.fit s.X_history s.y_history }, none)
      else (s4, none)
  else (s, none)

/-- main.py lines 81-96 on a non-empty batch: increment the processed
counter by the batch size, append every record to the history, then compare
the first record's feature count against the stored baseline (skipping the
comparison when the baseline is the initial 0), setting the added/removed
gauge to 1 and alerting on a strict change, and finally overwrite the
baseline with the current count. -/
def mainIngest (s : MainState) (records : Batch) : MainState :=
  let s1 := { s with
    records_processed := s.records_processed + records.length,
    X_history := s.X_history ++ records.map Record.features,
    y_history := s.y_history ++ records.map Record.label }
  let w := (records.headI).features.length
  let s2 :=
    if s1.previous_features_count ≠ 0 then
      if s1.previous_features_count < w then
        { s1 with feature_added := 1, alerts := s1.alerts ++ [Alert.featureAdded] }
      else if w < s1.previous_features_count then
        { s1 with feature_removed := 1, alerts := s1.alerts ++ [Alert.featureRemoved] }
      else s1
    else s1
  { s2 with previous_features_count := w }

/-- The body of one iteration of main.py `ingestion_and_retrain_loop`
(everything inside the `try`), as a function of the fetch outcome.  The
second component is the exception, if any, that reaches the loop-level
`except`; the first component is the state at that point (mutations made
before a raise persist, since the globals are updated in place). -/
def mainBody (env : Env) (s : MainState) : FetchOutcome → MainState × Option String
  | FetchOutcome.netError => (s, some "requests.get raised a connection error")
  | FetchOutcome.jsonError => (s, some "resp.json raised a decode error")
  | FetchOutcome.status503 =>
    ({ s with datalake_unavailable := s.datalake_unavailable + 1,
              alerts := s.alerts ++ [Alert.unavailable503] }, none)
  | FetchOutcome.payload records =>
    if records.isEmpty then (s, none)
    else retrainSection env (mainIngest s records)

/-- One complete cycle of main.py: the `try/except` at the top of the loop
body swallows any raise, so the cycle is total and yields the state the
body reached. -/
def mainCycle (env : Env) (s : MainState) (o : FetchOutcome) : MainState :=
  (mainBody env s o).1

/-- main.py `ingestion_and_retrain_loop` driven by a finite trace of fetch
outcomes: `while True` with the whole body wrapped in `try/except`, so every
outcome of the trace is consumed. -/
def ingestion_and_retrain_loop (env : Env) : List FetchOutcome → MainState → MainState
  | [], s => s
  | o :: rest, s => ingestion_and_retrain_loop env rest (mainCycle env s o)

/-- The initial global state of main.py, parametrised by the initial model
loaded from `model_cycle_20.joblib`. -/
def mainInit (m0 : Model) : MainState :=
  { model := m0, X_history := [], y_history := [], previous_features_count := 0,
    records_processed := 0, datalake_unavailable := 0, retrain_count := 0,
    model_accuracy := none, feature_added := 0, feature_removed := 0,
    distribution_drift_detected := 0, alerts := [] }

/-! ### Drift statistics (ml_model.py `detect_drift`) -/

/-- `statistics.mean`. -/
def qmean (l : List ℚ) : ℚ := l.sum / (l.length : ℚ)

/-- The sample variance underlying `statistics.stdev(vals)`; the stored
standard deviation of the source is its square root (0 for a single value,
matching `stdev(vals) if len(vals) > 1 else 0.0`).  The state stores the
variance because the square root only ever occurs inside the threshold
comparison; `driftExceeds_iff_sqrt` proves the comparison made on the
variance is exactly the source's comparison on the standard deviation. -/
def sampleVar (l : List ℚ) : ℚ :=
  if 1 < l.length then
    ((l.map (fun x => (x - qmean l) ^ 2)).sum) / ((l.length : ℚ) - 1)
  else 0

/-- The source's per-feature drift test
`abs(mean - old_mean) > max(0.1, 0.2 * old_std)` with `old_std = sqrt v`,
phrased on the stored variance `v`: since both sides of the second
comparison are nonnegative it is equivalent to `d^2 > 0.04 * v`
(see `driftExceeds_iff_sqrt`). -/
def driftExceeds (d v : ℚ) : Bool :=
  decide ((1 : ℚ)/10 < |d|) && decide (v / 25 < d ^ 2)

/-- Lookup in the `feature_stats` dict (keyed by feature index). -/
def lookupStat : List (ℕ × ℚ × ℚ) → ℕ → Option (ℚ × ℚ)
  | [], _ => none
  | e :: rest, i => if e.1 = i then some e.2 else lookupStat rest i

/-- `feature_stats[idx] = (mean, var)`: replace or append. -/
def insertStat : List (ℕ × ℚ × ℚ) → ℕ → ℚ × ℚ → List (ℕ × ℚ × ℚ)
  | [], i, p => [(i, p)]
  | e :: rest, i, p => if e.1 = i then (i, p) :: rest else e :: insertStat rest i p

/-- `[r['features'][idx] for r in records]`: `none` models the `IndexError`
raised when some record is shorter than the first one. -/
def valsAt (records : Batch) (i : ℕ) : Option (List ℚ) :=
  records.mapM (fun r => r.features.get? i)

/-- The state touched by ml_model.py `detect_drift`: the `feature_stats`
dict, the drift gauge and the alert channel. -/
structure DriftCtx where
  feature_stats : List (ℕ × ℚ × ℚ)
  gauge : ℕ
  alerts : List Alert
  deriving DecidableEq

/-- The `for idx, _ in enumerate(records[0]['features'])` loop of
`detect_drift`, threading the stats dict and the `drift_detected` flag;
the third component records an `IndexError` raise, after which the stats
updated so far persist (the dict is mutated in place). -/
def driftFold (records : Batch) : List ℕ → List (ℕ × ℚ × ℚ) → Bool →
    List (ℕ × ℚ × ℚ) × Bool × Bool
  | [], stats, b => (stats, b, false)
  | i :: rest, stats, b =>
    match valsAt records i with
    | none => (stats, b, true)
    | some vals =>
      let m := qmean vals
      let v := sampleVar vals
      let b2 :=
        match lookupStat stats i with
        | some p => b || driftExceeds (m - p.1) p.2
        | none => b
      driftFold records rest (insertStat stats i (m, v)) b2

/-- ml_model.py `detect_drift` on a non-empty batch: per-feature means and
variances over the batch, comparison against the stored statistics, then
the gauge is set to 1 (with an alert) or 0.  On an `IndexError` inside the
loop the partially updated stats persist but the gauge and alerts are left
untouched (the raise precedes them). -/
def detect_drift (c : DriftCtx) (records : Batch) : DriftCtx × Option String :=
  let w := (records.headI).features.length
  let r := driftFold records (List.range w) c.feature_stats false
  if r.2.2 then
    ({ c with feature_stats := r.1 }, some "IndexError: list index out of range")
  else if r.2.1 then
    ({ feature_stats := r.1, gauge := 1, alerts := c.alerts ++ [Alert.drift] }, none)
  else
    ({ feature_stats := r.1, gauge := 0, alerts := c.alerts }, none)

/-! ### State and cycle of ml_model.py `ingestion_loop` -/

/-- The global mutable state of ml_model.py.  `retrain_gauge` is the
`retrain_count_total` Prometheus gauge, set from the `retrain_count`
variable each training pass (before a possible increment). -/
structure MLState where
  model : Model
  X : List (List ℚ)
  y : List ℤ
  retrain_count : ℕ
  retrain_gauge : ℕ
  current_cycle : ℕ
  previous_features : Finset ℚ
  feature_stats : List (ℕ × ℚ × ℚ)
  records_processed : ℕ
  datalake_unavailable : ℕ
  model_accuracy : Option ℚ
  feature_added : ℕ
  feature_removed : ℕ
  distribution_drift_detected : ℕ
  alerts : List Alert

/-- The outcome of one `requests.get(URL)` in `fetch_records`: an explicit
503, a raise (connection/timeout/JSON), or a parsed batch (the list itself
or the `records` field of a dict payload). -/
inductive MLFetch where
  | status503 : MLFetch
  | netError : MLFetch
  | payload : Batch → MLFetch

/-- ml_model.py `fetch_records`: on 503 it increments the unavailable
counter and alerts, returning `None`; its own `except` branch does the same
for any raise (note: it also increments the counter and alerts); on success
it increments the processed counter by the batch size and returns the
records. -/
def fetch_records (s : MLState) : MLFetch → MLState × Option Batch
  | MLFetch.status503 =>
    ({ s with datalake_unavailable := s.datalake_unavailable + 1,
              alerts := s.alerts ++ [Alert.unavailable503] }, none)
  | MLFetch.netError =>
    ({ s with datalake_unavailable := s.datalake_unavailable + 1,
              alerts := s.alerts ++ [Alert.fetchError] }, none)
  | MLFetch.payload records =>
    ({ s with records_processed := s.records_processed + records.length }, some records)

/-- ml_model.py `detect_feature_changes` on a non-empty batch: the identity
is the SET OF FEATURE VALUES of the first record; the added/removed gauges
are incremented by the cardinality of the set differences, and the baseline
is always overwritten. -/
def detect_feature_changes (s : MLState) (records : Batch) : MLState :=
  let newSet := (records.headI).features.toFinset
  let added := newSet \ s.previous_features
  let removed := s.previous_features \ newSet
  let s1 :=
    if added ≠ ∅ then
      { s with feature_added := s.feature_added + added.card,
               alerts := s.alerts ++ [Alert.featureAddedVals added] }
    else s
  let s2 :=
    if removed ≠ ∅ then
      { s1 with feature_removed := s1.feature_removed + removed.card,
                alerts := s1.alerts ++ [Alert.featureRemovedVals removed] }
    else s1
  { s2 with previous_features := newSet }

/-- ml_model.py `train_model`: skip below `MIN_SAMPLES_TO_TRAIN = 4`;
otherwise fit on a 0.3 split, publish accuracy and the (pre-increment)
retrain gauge, and below the 0.8 threshold increment the retrain count and
alert with the THRESHOLD value - there is no second full fit in this
variant.  The error component models a raise (here from `model.predict`),
which nothing in this file catches. -/
def train_model (env : Env) (s : MLState) : MLState × Option String :=
  if s.X.length < 4 then (s, none)
  else
    let q := env.split (3/10) s.X s.y
    let m1 := env.fit q.1 q.2.2.1
    match predictListE m1 q.2.1 with
    | Except.error e => ({ s with model := m1 }, some e)
    | Except.ok preds =>
      let acc := accuracyScore q.2.2.2 preds
      let s1 := { s with model := m1, model_accuracy := some acc,
                         retrain_gauge := s.retrain_count }
      if acc < 4/5 then
        ({ s1 with retrain_count := s1.retrain_count + 1,
                   alerts := s1.alerts ++ [Alert.lowAccuracyThreshold (4/5)] }, none)
      else (s1, none)

/-- The call to `detect_drift(records)` inside the ml_model.py loop body,
viewed on the whole state: the drift context (stats dict, drift gauge,
alert channel) is threaded through `detect_drift` and merged back; a raise
inside `detect_drift` is propagated. -/
def drift_merge (s1 : MLState) (records : Batch) : MLState × Option String :=
  match detect_drift (DriftCtx.mk s1.feature_stats s1.distribution_drift_detected s1.alerts)
      records with
  | (c2, oe) =>
    ({ s1 with feature_stats := c2.feature_stats,
               distribution_drift_detected := c2.gauge,
               alerts := c2.alerts }, oe)

/-- The history-append loop of the ml_model.py loop body (`X.append`,
`y.append` for every record; every modelled record has both fields). -/
def append_history (s : MLState) (records : Batch) : MLState :=
  { s with X := s.X ++ records.map Record.features,
           y := s.y ++ records.map Record.label }

/-- One iteration of the `while` body of ml_model.py `ingestion_loop`:
fetch, and if records were returned (a non-empty list - Python truthiness),
detect feature changes, detect drift, append to history, train, and advance
the cycle counter.  The error component is a raise that escapes the
iteration: `ingestion_loop` has no `try/except`, so such a raise
terminates the loop. -/
def ml_cycle (env : Env) (s : MLState) (f : MLFetch) : MLState × Option String :=
  match fetch_records s f with
  | (s0, none) => (s0, none)
  | (s0, some records) =>
    if records.isEmpty then (s0, none)
    else
      let s1 := detect_feature_changes s0 records
      match drift_merge s1 records with
      | (s2, some e) => (s2, some e)
      | (s2, none) =>
        match train_model env (append_history s2 records) with
        | (s4, some e) => (s4, some e)
        | (s4, none) => ({ s4 with current_cycle := s4.current_cycle + 1 }, none)

/-- ml_model.py `ingestion_loop` driven by a finite trace of fetch
outcomes: `while current_cycle < TRAIN_CYCLES (= 50)`.  A raise escaping an
iteration terminates the loop immediately with that error; otherwise the
loop stops when the cycle budget is reached (or the trace is exhausted). -/
def ingestion_loop (env : Env) : List MLFetch → MLState → MLState × Option String
  | [], s => (s, none)
  | f :: rest, s =>
    if s.current_cycle < 50 then
      match ml_cycle env s f with
      | (s2, none) => ingestion_loop env rest s2
      | (s2, some e) => (s2, some e)
    else (s, none)

/-- The initial global state of ml_model.py, parametrised by the (unfitted)
`RandomForestClassifier()`. -/
def mlInit (m0 : Model) : MLState :=
  { model := m0, X := [], y := [], retrain_count := 0, retrain_gauge := 0,
    current_cycle := 0, previous_features := ∅, feature_stats := [],
    records_processed := 0, datalake_unavailable := 0, model_accuracy := none,
    feature_added := 0, feature_removed := 0, distribution_drift_detected := 0,
    alerts := [] }

/-- Per-index drift check against a FIXED stats dict: true when index `i`
has a stored prior statistic and the current batch's column mean at `i`
exceeds the threshold against it.  `driftFold` is proved to flag drift
exactly when some index of the first record passes this check against the
stats dict as it stood when `detect_drift` was entered. -/
def checkIdx (stats0 : List (ℕ × ℚ × ℚ)) (records : Batch) (i : ℕ) : Bool :=
  match lookupStat stats0 i, valsAt records i with
  | some p, some vals => driftExceeds (qmean vals - p.1) p.2
  | _, _ => false

/-- Column `i` of a batch (with a default for missing entries; used only at
indices every record covers). -/
def colVals (records : Batch) (i : ℕ) : List ℚ :=
  records.map (fun r => r.features.getD i 0)

/-- The drift condition of claim C2 read literally: some feature index of
the current batch whose current-batch mean differs from the mean THE
PREVIOUS BATCH had at that index by strictly more than
`max(0.1, 0.2 * previous batch's standard deviation)`.  This is the
claim's wording, not the source's: the source compares against the stored
`feature_stats` entry, which can be a stale statistic from an older batch
when the previous batch was narrower. -/
def claimC2Cond (prev cur : Batch) : Prop :=
  ∃ i, i < (cur.headI).features.length ∧ i < (prev.headI).features.length ∧
    max (1/10 : ℝ) ((1/5) * Real.sqrt ((sampleVar (colVals prev i) : ℚ) : ℝ)) <
      |((qmean (colVals cur i) - qmean (colVals prev i) : ℚ) : ℝ)|

/-! ### Concrete instances used by witnesses and counterexamples -/

/-- A concrete one-feature model that classifies everything as 1. -/
def trivialModel : Model := { width := 1, classify := fun _ => 1 }

/-- A concrete environment: fitting always yields `trivialModel`, and the
split puts the first sample into the test partition and the rest into the
train partition. -/
def env0 : Env :=
  { fit := fun _ _ => trivialModel,
    split := fun _ X y => (X.drop 1, X.take 1, y.drop 1, y.take 1) }

/-! ### Helper lemmas -/

attribute [local semireducible] Rat.mul Rat.inv Rat.add Rat.sub

theorem retrainSection_preserves (env : Env) (s : MainState) :
    (retrainSection env s).1.previous_features_count = s.previous_features_count ∧
    (retrainSection env s).1.feature_added = s.feature_added ∧
    (retrainSection env s).1.feature_removed = s.feature_removed ∧
    (retrainSection env s).1.records_processed = s.records_processed ∧
    (retrainSection env s).1.datalake_unavailable = s.datalake_unavailable ∧
    (retrainSection env s).1.X_history = s.X_history ∧
    (retrainSection env s).1.y_history = s.y_history ∧
    ∃ t, (retrainSection env s).1.alerts = s.alerts ++ t ∧
      Alert.featureAdded ∉ t ∧ Alert.featureRemoved ∉ t := by
  by_cases h20 : 20 < s.X_history.length
  · rcases hq : predictListE (env.fit (env.split (1/5) s.X_history s.y_history).1
        (env.split (1/5) s.X_history s.y_history).2.2.1)
        (env.split (1/5) s.X_history s.y_history).2.1 with e | preds
    · refine ⟨?_, ?_, ?_, ?_, ?_, ?_, ?_, [], ?_, by simp, by simp⟩ <;>
        simp only [retrainSection, if_pos h20, hq, List.append_nil]
    · by_cases hacc : accuracyScore (env.split (1/5) s.X_history s.y_history).2.2.2 preds < 4/5
      · refine ⟨?_, ?_, ?_, ?_, ?_, ?_, ?_,
          [Alert.lowAccuracy (accuracyScore (env.split (1/5) s.X_history s.y_history).2.2.2
            preds)], ?_, by simp, by simp⟩ <;>
          simp only [retrainSection, if_pos h20, hq, if_pos hacc]
      · refine ⟨?_, ?_, ?_, ?_, ?_, ?_, ?_, [], ?_, by simp, by simp⟩ <;>
          simp only [retrainSection, if_pos h20, hq, if_neg hacc, List.append_nil]
  · refine ⟨?_, ?_, ?_, ?_, ?_, ?_, ?_, [], ?_, by simp, by simp⟩ <;>
      simp only [retrainSection, if_neg h20, List.append_nil]

theorem train_model_preserves (env : Env) (t : MLState) :
    (train_model env t).1.previous_features = t.previous_features ∧
    (train_model env t).1.feature_added = t.feature_added ∧
    (train_model env t).1.feature_removed = t.feature_removed ∧
    (train_model env t).1.distribution_drift_detected = t.distribution_drift_detected ∧
    (train_model env t).1.feature_stats = t.feature_stats ∧
    (train_model env t).1.current_cycle = t.current_cycle ∧
    (train_model env t).1.records_processed = t.records_processed ∧
    (train_model env t).1.datalake_unavailable = t.datalake_unavailable := by
  by_cases h4 : t.X.length < 4
  · refine ⟨?_, ?_, ?_, ?_, ?_, ?_, ?_, ?_⟩ <;> simp only [train_model, if_pos h4]
  · rcases hq : predictListE (env.fit (env.split (3/10) t.X t.y).1
        (env.split (3/10) t.X t.y).2.2.1) (env.split (3/10) t.X t.y).2.1 with e | preds
    · refine ⟨?_, ?_, ?_, ?_, ?_, ?_, ?_, ?_⟩ <;> simp only [train_model, if_neg h4, hq]
    · by_cases hacc : accuracyScore (env.split (3/10) t.X t.y).2.2.2 preds < 4/5
      · refine ⟨?_, ?_, ?_, ?_, ?_, ?_, ?_, ?_⟩ <;>
          simp only [train_model, if_neg h4, hq, if_pos hacc]
      · refine ⟨?_, ?_, ?_, ?_, ?_, ?_, ?_, ?_⟩ <;>
          simp only [train_model, if_neg h4, hq, if_neg hacc]

theorem detect_feature_changes_previous (t : MLState) (records : Batch) :
    (detect_feature_changes t records).previous_features =
      (records.headI).features.toFinset := by
  simp [detect_feature_changes]

theorem detect_feature_changes_gauges (t : MLState) (records : Batch) :
    t.feature_added ≤ (detect_feature_changes t records).feature_added ∧
    t.feature_removed ≤ (detect_feature_changes t records).feature_removed ∧
    (detect_feature_changes t records).distribution_drift_detected =
      t.distribution_drift_detected ∧
    (detect_feature_changes t records).feature_stats = t.feature_stats := by
  by_cases ha : (records.headI).features.toFinset \ t.previous_features ≠ ∅ <;>
    by_cases hr : t.previous_features \ (records.headI).features.toFinset ≠ ∅ <;>
      simp [detect_feature_changes, ha, hr]

theorem drift_merge_fields (s1 : MLState) (records : Batch) :
    (drift_merge s1 records).1.previous_features = s1.previous_features ∧
    (drift_merge s1 records).1.feature_added = s1.feature_added ∧
    (drift_merge s1 records).1.feature_removed = s1.feature_removed ∧
    (drift_merge s1 records).1.X = s1.X ∧
    (drift_merge s1 records).1.y = s1.y ∧
    (drift_merge s1 records).1.current_cycle = s1.current_cycle := by
  rcases h : detect_drift
      (DriftCtx.mk s1.feature_stats s1.distribution_drift_detected s1.alerts) records
    with ⟨c2, oe⟩
  refine ⟨?_, ?_, ?_, ?_, ?_, ?_⟩ <;> simp only [drift_merge, h]

theorem ml_cycle_payload_fields (env : Env) (t : MLState) (r : Record) (rs : List Record) :
    (ml_cycle env t (MLFetch.payload (r :: rs))).1.previous_features =
      r.features.toFinset ∧
    t.feature_added ≤ (ml_cycle env t (MLFetch.payload (r :: rs))).1.feature_added ∧
    t.feature_removed ≤ (ml_cycle env t (MLFetch.payload (r :: rs))).1.feature_removed := by
  have hmc : ml_cycle env t (MLFetch.payload (r :: rs)) =
      (match drift_merge
          (detect_feature_changes
            { t with records_processed := t.records_processed + (r :: rs).length } (r :: rs))
          (r :: rs) with
      | (s2, some e) => (s2, some e)
      | (s2, none) =>
        match train_model env (append_history s2 (r :: rs)) with
        | (s4, some e) => (s4, some e)
        | (s4, none) => ({ s4 with current_cycle := s4.current_cycle + 1 }, none)) := rfl
  rw [hmc]
  rcases hdm : drift_merge
      (detect_feature_changes
        { t with records_processed := t.records_processed + (r :: rs).length } (r :: rs))
      (r :: rs) with ⟨s2, oe⟩
  have hdmf := drift_merge_fields
    (detect_feature_changes
      { t with records_processed := t.records_processed + (r :: rs).length } (r :: rs))
    (r :: rs)
  rw [hdm] at hdmf
  have hdfg := detect_feature_changes_gauges
    { t with records_processed := t.records_processed + (r :: rs).length } (r :: rs)
  have hdfp := detect_feature_changes_previous
    { t with records_processed := t.records_processed + (r :: rs).length } (r :: rs)
  rcases oe with _ | e
  · dsimp only
    rcases htr : train_model env (append_history s2 (r :: rs)) with ⟨s4, oe2⟩
    have htrf := train_model_preserves env (append_history s2 (r :: rs))
    rw [htr] at htrf
    rcases oe2 with _ | e2
    · refine ⟨?_, ?_, ?_⟩
      · show s4.previous_features = r.features.toFinset
        rw [htrf.1]
        show s2.previous_features = r.features.toFinset
        rw [hdmf.1]
        exact hdfp
      · show t.feature_added ≤ s4.feature_added
        rw [htrf.2.1]
        show t.feature_added ≤ s2.feature_added
        rw [hdmf.2.1]
        exact hdfg.1
      · show t.feature_removed ≤ s4.feature_removed
        rw [htrf.2.2.1]
        show t.feature_removed ≤ s2.feature_removed
        rw [hdmf.2.2.1]
        exact hdfg.2.1
    · refine ⟨?_, ?_, ?_⟩
      · show s4.previous_features = r.features.toFinset
        rw [htrf.1]
        show s2.previous_features = r.features.toFinset
        rw [hdmf.1]
        exact hdfp
      · show t.feature_added ≤ s4.feature_added
        rw [htrf.2.1]
        show t.feature_added ≤ s2.feature_added
        rw [hdmf.2.1]
        exact hdfg.1
      · show t.feature_removed ≤ s4.feature_removed
        rw [htrf.2.2.1]
        show t.feature_removed ≤ s2.feature_removed
        rw [hdmf.2.2.1]
        exact hdfg.2.1
  · refine ⟨?_, ?_, ?_⟩
    · show s2.previous_features = r.features.toFinset
      rw [hdmf.1]
      exact hdfp
    · show t.feature_added ≤ s2.feature_added
      rw [hdmf.2.1]
      exact hdfg.1
    · show t.feature_removed ≤ s2.feature_removed
      rw [hdmf.2.2.1]
      exact hdfg.2.1

/-! ### The claims -/

/-- C3 (amended): in main.py the retraining gate is `len(X_history) > 20`,
so the controller skips (state unchanged, no fit, no accuracy gauge) at
every history size up to and including 20 - the effective floor is 21, not
20 - and whenever the size strictly exceeds 20 a fit is performed (the
resulting model is the train-split fit or, below the accuracy threshold,
the full-history refit).  In ml_model.py the floor is
`MIN_SAMPLES_TO_TRAIN = 4` with a `<` comparison: sizes below 4 skip and
any size of at least 4 fits on the train split. -/
theorem C3_retrain_gate (env : Env) (s : MainState) (t : MLState) :
    (s.X_history.length ≤ 20 → retrainSection env s = (s, none)) ∧
    (20 < s.X_history.length →
      (retrainSection env s).1.model =
          env.fit (env.split (1/5) s.X_history s.y_history).1
            (env.split (1/5) s.X_history s.y_history).2.2.1 ∨
      (retrainSection env s).1.model = env.fit s.X_history s.y_history) ∧
    (t.X.length < 4 → train_model env t = (t, none)) ∧
    (4 ≤ t.X.length →
      (train_model env t).1.model =
        env.fit (env.split (3/10) t.X t.y).1 (env.split (3/10) t.X t.y).2.2.1) := by
  refine ⟨?_, ?_, ?_, ?_⟩
  · intro h
    simp only [retrainSection, if_neg (not_lt.mpr h)]
  · intro h20
    rcases hq : predictListE (env.fit (env.split (1/5) s.X_history s.y_history).1
        (env.split (1/5) s.X_history s.y_history).2.2.1)
        (env.split (1/5) s.X_history s.y_history).2.1 with e | preds
    · left
      simp only [retrainSection, if_pos h20, hq]
    · by_cases hacc : accuracyScore (env.split (1/5) s.X_history s.y_history).2.2.2 preds < 4/5
      · right
        simp only [retrainSection, if_pos h20, hq, if_pos hacc]
      · left
        simp only [retrainSection, if_pos h20, hq, if_neg hacc]
  · intro h
    simp only [train_model, if_pos h]
  · intro h4
    have h4n : ¬ t.X.length < 4 := not_lt.mpr h4
    rcases hq : predictListE (env.fit (env.split (3/10) t.X t.y).1
        (env.split (3/10) t.X t.y).2.2.1) (env.split (3/10) t.X t.y).2.1 with e | preds
    · simp only [train_model, if_neg h4n, hq]
    · by_cases hacc : accuracyScore (env.split (3/10) t.X t.y).2.2.2 preds < 4/5
      · simp only [train_model, if_neg h4n, hq, if_pos hacc]
      · simp only [train_model, if_neg h4n, hq, if_neg hacc]

/-- C3 witness: a history of 18 records skips (claim scenario) and one of
21 records fits, in both variants at their respective gates. -/
theorem C3_retrain_gate_witness :
    (List.replicate 18 ([0] : List ℚ)).length ≤ 20 ∧
    retrainSection env0 { mainInit trivialModel with
        X_history := List.replicate 18 [0], y_history := List.replicate 18 0 } =
      ({ mainInit trivialModel with
        X_history := List.replicate 18 [0], y_history := List.replicate 18 0 }, none) :=
  ⟨by decide,
    (C3_retrain_gate env0
      { mainInit trivialModel with
        X_history := List.replicate 18 [0], y_history := List.replicate 18 0 }
      (mlInit trivialModel)).1 (by decide)⟩

/-- C3 counterexample: at history size exactly 20 - the floor named by the
claim - main.py performs no fit at all: the state (model, accuracy gauge
included) is returned unchanged, refuting "performs a fit whenever the
size has reached the floor". -/
theorem C3_counterexample :
    retrainSection env0 { mainInit trivialModel with
        X_history := List.replicate 20 [0], y_history := List.replicate 20 0 } =
      ({ mainInit trivialModel with
        X_history := List.replicate 20 [0], y_history := List.replicate 20 0 }, none) ∧
    (List.replicate 20 ([0] : List ℚ)).length = 20 :=
  ⟨rfl, by decide⟩

/-- C4 (amended): in the background loop of main.py every error raised
inside the cycle body is caught at the top of that cycle, so the loop
continues with the state the body had reached; main.py's loop has no
terminal condition at all.  The bounded-cycles loop of ml_model.py,
by contrast, contains no such handler (see `C4_counterexample`). -/
theorem C4_main_loop_error_containment (env : Env) (s : MainState) (o : FetchOutcome)
    (rest : List FetchOutcome) (e : String) (h : (mainBody env s o).2 = some e) :
    ingestion_and_retrain_loop env (o :: rest) s =
      ingestion_and_retrain_loop env rest ((mainBody env s o).1) := rfl

/-- C4 witness: a JSON decode error raised in the body is caught and the
loop proceeds to the next cycle. -/
theorem C4_main_loop_error_containment_witness :
    (mainBody env0 (mainInit trivialModel) FetchOutcome.jsonError).2 =
      some "resp.json raised a decode error" ∧
    ingestion_and_retrain_loop env0 [FetchOutcome.jsonError] (mainInit trivialModel) =
      ingestion_and_retrain_loop env0 []
        ((mainBody env0 (mainInit trivialModel) FetchOutcome.jsonError).1) :=
  ⟨rfl, C4_main_loop_error_containment env0 (mainInit trivialModel) FetchOutcome.jsonError []
    "resp.json raised a decode error" rfl⟩

/-- C4 counterexample: ml_model.py's `ingestion_loop` has no per-cycle
handler, so an `IndexError` raised inside `detect_drift` by a batch whose
second record is shorter than its first escapes the cycle and terminates
the loop at cycle 0, long before the 50-cycle budget: the claim that any
error inside the cycle body is caught and the loop exits only via the
bounded-cycles condition is false on this variant. -/
theorem C4_counterexample :
    (ingestion_loop env0 [MLFetch.payload [⟨[1, 2], 0⟩, ⟨[1], 0⟩]]
        (mlInit trivialModel)).2 = some "IndexError: list index out of range" ∧
    (ingestion_loop env0 [MLFetch.payload [⟨[1, 2], 0⟩, ⟨[1], 0⟩]]
        (mlInit trivialModel)).1.current_cycle = 0 ∧ (0 : ℕ) < 50 := by
  refine ⟨by decide, by decide, by decide⟩

/-- C5: after any non-empty batch is processed, the stored schema baseline
equals the identity computed from the batch's first record, whatever the
baseline was before and whatever signal was emitted: in main.py the
baseline is the feature count, in ml_model.py it is the set of feature
values of the first record. -/
theorem C5_baseline_overwrite (env : Env) (s : MainState) (t : MLState) (records : Batch)
    (hne : records ≠ []) :
    (mainBody env s (FetchOutcome.payload records)).1.previous_features_count =
      (records.headI).features.length ∧
    (ml_cycle env t (MLFetch.payload records)).1.previous_features =
      (records.headI).features.toFinset := by
  rcases records with _ | ⟨r, rs⟩
  · exact absurd rfl hne
  constructor
  · have hmb : mainBody env s (FetchOutcome.payload (r :: rs)) =
        retrainSection env (mainIngest s (r :: rs)) := rfl
    rw [hmb, (retrainSection_preserves env (mainIngest s (r :: rs))).1]
    simp [mainIngest]
  · exact (ml_cycle_payload_fields env t r rs).1

/-- C5 witness: a concrete one-record batch overwrites both baselines. -/
theorem C5_baseline_overwrite_witness :
    ([(⟨[1, 2], 0⟩ : Record)] : Batch) ≠ [] ∧
    (mainBody env0 (mainInit trivialModel)
        (FetchOutcome.payload [⟨[1, 2], 0⟩])).1.previous_features_count = 2 ∧
    (ml_cycle env0 (mlInit trivialModel)
        (MLFetch.payload [⟨[1, 2], 0⟩])).1.previous_features = {1, 2} :=
  ⟨by decide,
    (C5_baseline_overwrite env0 (mainInit trivialModel) (mlInit trivialModel)
      [⟨[1, 2], 0⟩] (by decide)).1,
    (C5_baseline_overwrite env0 (mainInit trivialModel) (mlInit trivialModel)
      [⟨[1, 2], 0⟩] (by decide)).2⟩

/-- C6 (amended): in the count-based variant (main.py), for a processed
batch following a batch whose stored width is NONZERO, the Added signal
(one `featureAdded` alert and the gauge set to 1) fires exactly when the
new width strictly exceeds the stored one, and for no other transition;
when the stored width is zero (initial state, or a previous batch with an
empty feature vector) the comparison is skipped entirely, so a width
increase out of a zero-width batch never fires (see `C6_counterexample`). -/
theorem C6_added_iff_width_increase (env : Env) (s : MainState) (records : Batch)
    (hne : records ≠ []) (h0 : s.previous_features_count ≠ 0) :
    (mainBody env s (FetchOutcome.payload records)).1.alerts.count Alert.featureAdded =
      s.alerts.count Alert.featureAdded +
        (if s.previous_features_count < (records.headI).features.length then 1 else 0) ∧
    (mainBody env s (FetchOutcome.payload records)).1.feature_added =
      (if s.previous_features_count < (records.headI).features.length then 1
        else s.feature_added) := by
  rcases records with _ | ⟨r, rs⟩
  · exact absurd rfl hne
  have hmb : mainBody env s (FetchOutcome.payload (r :: rs)) =
      retrainSection env (mainIngest s (r :: rs)) := rfl
  obtain ⟨t, ht, htA, htR⟩ :=
    (retrainSection_preserves env (mainIngest s (r :: rs))).2.2.2.2.2.2.2
  have hga := (retrainSection_preserves env (mainIngest s (r :: rs))).2.1
  rw [hmb]
  constructor
  · rw [ht, List.count_append, List.count_eq_zero.mpr htA]
    by_cases hlt : s.previous_features_count < r.features.length
    · simp [mainIngest, h0, hlt, List.count_append]
    · by_cases hgt : r.features.length < s.previous_features_count
      · simp [mainIngest, h0, hlt, hgt, List.count_append]
      · simp [mainIngest, h0, hlt, hgt]
  · rw [hga]
    by_cases hlt : s.previous_features_count < r.features.length
    · simp [mainIngest, h0, hlt]
    · by_cases hgt : r.features.length < s.previous_features_count
      · simp [mainIngest, h0, hlt, hgt]
      · simp [mainIngest, h0, hlt, hgt]

/-- C6 witness: with a stored width of 2, a width-3 batch fires Added
exactly once and sets the gauge. -/
theorem C6_added_iff_width_increase_witness :
    ([(⟨[5, 6, 7], 1⟩ : Record)] : Batch) ≠ [] ∧
    ({ mainInit trivialModel with previous_features_count := 2 } :
        MainState).previous_features_count ≠ 0 ∧
    (mainBody env0 { mainInit trivialModel with previous_features_count := 2 }
        (FetchOutcome.payload [⟨[5, 6, 7], 1⟩])).1.alerts.count Alert.featureAdded = 0 + 1 :=
  ⟨by decide, by decide, by
    have h := (C6_added_iff_width_increase env0
      { mainInit trivialModel with previous_features_count := 2 }
      [⟨[5, 6, 7], 1⟩] (by decide) (by decide)).1
    simpa using h⟩

/-- C6 counterexample: a width-0 batch followed by a width-1 batch is a
strict width increase between consecutive processed batches, yet no Added
signal is emitted, because the detector treats a stored count of 0 as
"no previous batch" and skips the comparison. -/
theorem C6_counterexample :
    (mainCycle env0 (mainCycle env0 (mainInit trivialModel)
        (FetchOutcome.payload [⟨[], 0⟩])) (FetchOutcome.payload [⟨[1], 0⟩])).feature_added
      = 0 ∧
    Alert.featureAdded ∉ (mainCycle env0 (mainCycle env0 (mainInit trivialModel)
        (FetchOutcome.payload [⟨[], 0⟩])) (FetchOutcome.payload [⟨[1], 0⟩])).alerts ∧
    (mainCycle env0 (mainInit trivialModel)
        (FetchOutcome.payload [⟨[], 0⟩])).previous_features_count = 0 := by
  refine ⟨by decide, by decide, by decide⟩

/-- C7: a 503 response increments the unavailable counter exactly once,
raises an alert, and changes nothing else - in particular the processed
counter, the history and all detector state are untouched - in both
variants. -/
theorem C7_unavailable_503 (env : Env) (s : MainState) (t : MLState) :
    mainCycle env s FetchOutcome.status503 =
      { s with datalake_unavailable := s.datalake_unavailable + 1,
               alerts := s.alerts ++ [Alert.unavailable503] } ∧
    ml_cycle env t MLFetch.status503 =
      ({ t with datalake_unavailable := t.datalake_unavailable + 1,
                alerts := t.alerts ++ [Alert.unavailable503] }, none) :=
  ⟨rfl, rfl⟩

/-- C8 (amended): in main.py a connection/timeout failure raises inside the
`try` before any counter is touched and is caught by the loop-level
handler, so the cycle is a no-op (logged only: no alert, no unavailable
increment).  In ml_model.py, however, `fetch_records`' own `except` branch
treats a network failure like a 503: it increments the unavailable counter
and raises an alert (see `C8_counterexample`); the cycle counter still does
not advance and nothing else changes. -/
theorem C8_network_failure (env : Env) (s : MainState) (t : MLState) :
    mainCycle env s FetchOutcome.netError = s ∧
    ml_cycle env t MLFetch.netError =
      ({ t with datalake_unavailable := t.datalake_unavailable + 1,
                alerts := t.alerts ++ [Alert.fetchError] }, none) :=
  ⟨rfl, rfl⟩

/-- C1: whenever main.py's retraining section runs (history above the
gate) and the held-out accuracy of the train-split fit is strictly below
the 0.8 threshold, the cycle increments the retrain counter, raises an
alert carrying the observed accuracy, and performs a second, full fit over
the ENTIRE accumulated history (of which the train and test partitions are
the split), and that full-history fit is the model left in the global
snapshot - the one `predict` classifies with - with no exception escaping;
the final conjunct records that every non-empty processed batch reaches
this section on the post-append history. -/
theorem C1_full_refit_below_threshold (env : Env) (s : MainState) (preds : List ℤ)
    (h20 : 20 < s.X_history.length)
    (hpred : predictListE (env.fit (env.split (1/5) s.X_history s.y_history).1
        (env.split (1/5) s.X_history s.y_history).2.2.1)
        (env.split (1/5) s.X_history s.y_history).2.1 = Except.ok preds)
    (hacc : accuracyScore (env.split (1/5) s.X_history s.y_history).2.2.2 preds < 4/5) :
    (retrainSection env s).1.model = env.fit s.X_history s.y_history ∧
    (retrainSection env s).1.retrain_count = s.retrain_count + 1 ∧
    Alert.lowAccuracy (accuracyScore (env.split (1/5) s.X_history s.y_history).2.2.2 preds)
      ∈ (retrainSection env s).1.alerts ∧
    (retrainSection env s).2 = none ∧
    (∀ input : String, predict ((retrainSection env s).1.model) input =
      predict (env.fit s.X_history s.y_history) input) ∧
    (∀ (sPre : MainState) (records : Batch), records ≠ [] →
      mainBody env sPre (FetchOutcome.payload records) =
        retrainSection env (mainIngest sPre records)) := by
  refine ⟨?_, ?_, ?_, ?_, ?_, ?_⟩
  · simp only [retrainSection, if_pos h20, hpred, if_pos hacc]
  · simp only [retrainSection, if_pos h20, hpred, if_pos hacc]
  · simp only [retrainSection, if_pos h20, hpred, if_pos hacc]
    simp
  · simp only [retrainSection, if_pos h20, hpred, if_pos hacc]
  · intro input
    have hm : (retrainSection env s).1.model = env.fit s.X_history s.y_history := by
      simp only [retrainSection, if_pos h20, hpred, if_pos hacc]
    rw [hm]
  · intro sPre records hne
    rcases records with _ | ⟨r, rs⟩
    · exact absurd rfl hne
    · rfl

/-- C1 witness: 21 one-feature records, a split holding out the first
sample, and a fitted model that mispredicts it (accuracy 0 < 0.8). -/
theorem C1_full_refit_below_threshold_witness :
    20 < ({ mainInit trivialModel with X_history := List.replicate 21 [0], y_history := List.replicate 21 0 }).X_history.length ∧
    (retrainSection env0 { mainInit trivialModel with X_history := List.replicate 21 [0], y_history := List.replicate 21 0 }).1.retrain_count = 0 + 1 ∧
    (retrainSection env0 { mainInit trivialModel with X_history := List.replicate 21 [0], y_history := List.replicate 21 0 }).1.model =
      env0.fit (List.replicate 21 [0]) (List.replicate 21 0) :=
  ⟨by decide,
    (C1_full_refit_below_threshold env0
      { mainInit trivialModel with X_history := List.replicate 21 [0], y_history := List.replicate 21 0 }
      [1] (by decide) (by decide) (by decide)).2.1,
    (C1_full_refit_below_threshold env0
      { mainInit trivialModel with X_history := List.replicate 21 [0], y_history := List.replicate 21 0 }
      [1] (by decide) (by decide) (by decide)).1⟩

/-- C9: the prediction endpoint is total - for every model snapshot and
every input string it returns either a prediction payload or a structured
error payload - and on a 2-feature snapshot the request "680.2,679.3"
parses to the exact rationals 680.2 and 679.3 and returns the model's
integer label, while the length-mismatched request "1,2,3" returns the
structured width-mismatch error instead of crashing. -/
theorem C9_predict_total (m : Model) (s : String) :
    ((∃ n, predict m s = PredictResult.prediction n) ∨
      (∃ e, predict m s = PredictResult.errorPayload e)) ∧
    (m.width = 2 →
      predict m "680.2,679.3" = PredictResult.prediction (m.classify [3401/5, 6793/10]) ∧
      predict m "1,2,3" = PredictResult.errorPayload
        "X has a different number of features than the model") := by
  constructor
  · rcases h : predictBody m s with e | n
    · right
      exact ⟨e, by simp [predict, h]⟩
    · left
      exact ⟨n, by simp [predict, h]⟩
  · intro h2
    constructor
    · have hp : parseFeats (splitChar ',' ("680.2,679.3".toList)) =
          Except.ok [3401/5, 6793/10] := by decide
      unfold predict predictBody
      rw [hp]
      simp [Model.predictE, h2]
    · have hp : parseFeats (splitChar ',' ("1,2,3".toList)) = Except.ok [1, 2, 3] := by
        decide
      unfold predict predictBody
      rw [hp]
      simp [Model.predictE, h2]

/-- C9 witness: a concrete 2-feature model returns its label on the
well-formed request. -/
theorem C9_predict_total_witness :
    (⟨2, fun _ => 7⟩ : Model).width = 2 ∧
    predict ⟨2, fun _ => 7⟩ "680.2,679.3" = PredictResult.prediction 7 :=
  ⟨rfl, ((C9_predict_total ⟨2, fun _ => 7⟩ "").2 rfl).1⟩

/-- C8 counterexample: a network failure in ml_model.py increments the
unavailable counter and raises an alert, contradicting the claim that such
a cycle is logged only with no alert and no counter increment. -/
theorem C8_counterexample :
    (ml_cycle env0 (mlInit trivialModel) MLFetch.netError).1.datalake_unavailable = 1 ∧
    Alert.fetchError ∈ (ml_cycle env0 (mlInit trivialModel) MLFetch.netError).1.alerts := by
  refine ⟨by decide, by decide⟩

theorem real_thresh_iff (D V : ℝ) :
    (1/10 < |D| ∧ V / 25 < D ^ 2) ↔ max (1/10 : ℝ) ((1/5) * Real.sqrt V) < |D| := by
  rw [max_lt_iff]
  constructor
  · rintro ⟨h1, h2⟩
    refine ⟨h1, ?_⟩
    have h0 : (0:ℝ) < |D| := lt_trans (by norm_num) h1
    have h5D : (0:ℝ) < 5 * |D| := by linarith
    have hsq : Real.sqrt V < 5 * |D| :=
      (Real.sqrt_lt' h5D).mpr (by nlinarith [sq_abs D])
    linarith
  · rintro ⟨h1, h2⟩
    refine ⟨h1, ?_⟩
    have h0 : (0:ℝ) < |D| := lt_trans (by norm_num) h1
    have h5D : (0:ℝ) < 5 * |D| := by linarith
    have hsq : Real.sqrt V < 5 * |D| := by linarith
    have hv := (Real.sqrt_lt' h5D).mp hsq
    nlinarith [sq_abs D]

theorem driftExceeds_iff_sqrt (d v : ℚ) :
    driftExceeds d v = true ↔
      max (1/10 : ℝ) ((1/5) * Real.sqrt ((v : ℝ))) < |((d : ℝ))| := by
  rw [driftExceeds, Bool.and_eq_true, decide_eq_true_eq, decide_eq_true_eq,
    ← real_thresh_iff]
  constructor
  · rintro ⟨h1, h2⟩
    constructor
    · have h1R : ((1/10 : ℚ) : ℝ) < ((|d| : ℚ) : ℝ) := Rat.cast_lt.mpr h1
      push_cast at h1R
      exact h1R
    · have h2R : ((v / 25 : ℚ) : ℝ) < ((d ^ 2 : ℚ) : ℝ) := Rat.cast_lt.mpr h2
      push_cast at h2R
      exact h2R
  · rintro ⟨h1, h2⟩
    constructor
    · have h1R : ((1/10 : ℚ) : ℝ) < ((|d| : ℚ) : ℝ) := by push_cast; exact h1
      exact Rat.cast_lt.mp h1R
    · have h2R : ((v / 25 : ℚ) : ℝ) < ((d ^ 2 : ℚ) : ℝ) := by push_cast; exact h2
      exact Rat.cast_lt.mp h2R

theorem lookupStat_insertStat_ne (stats : List (ℕ × ℚ × ℚ)) (i j : ℕ) (p : ℚ × ℚ)
    (hij : i ≠ j) : lookupStat (insertStat stats i p) j = lookupStat stats j := by
  induction stats with
  | nil => simp [insertStat, lookupStat, hij]
  | cons e rest ih =>
    by_cases he : e.1 = i
    · have hej : ¬ ((i : ℕ) = j) := hij
      have hej2 : ¬ (e.1 = j) := by rw [he]; exact hij
      simp [insertStat, lookupStat, he, hej, hej2]
    · by_cases hej : e.1 = j
      · simp [insertStat, lookupStat, he, hej, Ne.symm hij]
      · simp [insertStat, lookupStat, he, hej, ih]

theorem driftFold_flag (records : Batch) (stats0 : List (ℕ × ℚ × ℚ)) :
    ∀ (is : List ℕ) (stats : List (ℕ × ℚ × ℚ)) (b : Bool)
      (st : List (ℕ × ℚ × ℚ)) (fl : Bool),
      is.Nodup → (∀ i ∈ is, lookupStat stats i = lookupStat stats0 i) →
      driftFold records is stats b = (st, fl, false) →
      fl = (b || is.any (checkIdx stats0 records)) := by
  intro is
  induction is with
  | nil =>
    intro stats b st fl _ _ h
    simp only [driftFold, Prod.mk.injEq] at h
    simp [← h.2.1]
  | cons i rest ih =>
    intro stats b st fl hnd hagree h
    rcases hv : valsAt records i with _ | vals
    · simp only [driftFold] at h
      rw [hv] at h
      simp at h
    · simp only [driftFold] at h
      rw [hv] at h
      dsimp only at h
      have hbi : (match lookupStat stats i with
          | some p => b || driftExceeds (qmean vals - p.1) p.2
          | none => b) = (b || checkIdx stats0 records i) := by
        rw [hagree i (List.mem_cons_self i rest)]
        rcases hls : lookupStat stats0 i with _ | p
        · simp [checkIdx, hls, hv]
        · simp [checkIdx, hls, hv]
      rw [hbi] at h
      have hagree2 : ∀ j ∈ rest,
          lookupStat (insertStat stats i (qmean vals, sampleVar vals)) j =
            lookupStat stats0 j := by
        intro j hj
        have hij : i ≠ j := fun hh => (List.nodup_cons.mp hnd).1 (hh ▸ hj)
        rw [lookupStat_insertStat_ne stats i j _ hij, hagree j (List.mem_cons_of_mem _ hj)]
      have hrec := ih (insertStat stats i (qmean vals, sampleVar vals))
        (b || checkIdx stats0 records i) st fl (List.nodup_cons.mp hnd).2 hagree2 h
      rw [hrec, List.any_cons, Bool.or_assoc]

theorem detect_drift_gauge (c : DriftCtx) (records : Batch) (c2 : DriftCtx)
    (hok : detect_drift c records = (c2, none)) :
    c2.gauge = (if (List.range (records.headI).features.length).any
        (checkIdx c.feature_stats records) then 1 else 0) := by
  rcases hr : driftFold records (List.range (records.headI).features.length)
      c.feature_stats false with ⟨st, fl, er⟩
  simp only [detect_drift] at hok
  rw [hr] at hok
  rcases er
  · have hany := driftFold_flag records c.feature_stats
      (List.range (records.headI).features.length) c.feature_stats false st fl
      (List.nodup_range _) (fun _ _ => rfl) hr
    rcases fl
    · have hf : (List.range (records.headI).features.length).any
          (checkIdx c.feature_stats records) = false := by simpa using hany.symm
      simp at hok
      rw [← hok]
      simp [hf]
    · have ht : (List.range (records.headI).features.length).any
          (checkIdx c.feature_stats records) = true := by simpa using hany.symm
      simp at hok
      rw [← hok]
      simp [ht]
  · simp at hok

/-- C2 (amended): for any non-empty batch that `detect_drift` processes
without raising, the drift gauge is set to 1 exactly when some feature
index of the batch has a STORED prior statistic (mean m, variance v, with
standard deviation sqrt v) whose distance from the current column mean
exceeds `max(0.1, 0.2 * sqrt v)`, and to 0 otherwise.  The stored
statistic equals the previous batch's statistic whenever the previous
batch covered that index, but is a stale value from an older batch when
the previous batch was narrower - comparing against the previous batch
itself, as the claim states it, is refuted by `C2_counterexample`. -/
theorem C2_drift_iff_stored (c : DriftCtx) (records : Batch) (c2 : DriftCtx)
    (hne : records ≠ []) (hok : detect_drift c records = (c2, none)) :
    (c2.gauge = 1 ↔ ∃ i < (records.headI).features.length, ∃ p : ℚ × ℚ, ∃ vals : List ℚ,
        lookupStat c.feature_stats i = some p ∧ valsAt records i = some vals ∧
        max (1/10 : ℝ) ((1/5) * Real.sqrt ((p.2 : ℝ))) < |(((qmean vals - p.1 : ℚ) : ℝ))|) ∧
    (c2.gauge = 0 ∨ c2.gauge = 1) := by
  have hg := detect_drift_gauge c records c2 hok
  have key : (List.range (records.headI).features.length).any
      (checkIdx c.feature_stats records) = true ↔
      (∃ i < (records.headI).features.length, ∃ p : ℚ × ℚ, ∃ vals : List ℚ,
        lookupStat c.feature_stats i = some p ∧ valsAt records i = some vals ∧
        max (1/10 : ℝ) ((1/5) * Real.sqrt ((p.2 : ℝ))) <
          |(((qmean vals - p.1 : ℚ) : ℝ))|) := by
    rw [List.any_eq_true]
    constructor
    · rintro ⟨i, hi, hci⟩
      rw [List.mem_range] at hi
      rcases hls : lookupStat c.feature_stats i with _ | p
      · rw [checkIdx, hls] at hci
        simp at hci
      · rcases hv : valsAt records i with _ | vals
        · rw [checkIdx, hls, hv] at hci
          simp at hci
        · rw [checkIdx, hls, hv] at hci
          exact ⟨i, hi, p, vals, hls, hv, (driftExceeds_iff_sqrt _ _).mp hci⟩
    · rintro ⟨i, hi, p, vals, hls, hv, hlt⟩
      refine ⟨i, List.mem_range.mpr hi, ?_⟩
      rw [checkIdx, hls, hv]
      exact (driftExceeds_iff_sqrt _ _).mpr hlt
  constructor
  · rw [hg, ← key]
    rcases (List.range (records.headI).features.length).any
        (checkIdx c.feature_stats records)
    · simp
    · simp
  · rw [hg]
    rcases (List.range (records.headI).features.length).any
        (checkIdx c.feature_stats records)
    · simp
    · simp

/-- C2 witness: a first batch against empty stored statistics flags no
drift and sets the gauge to 0. -/
theorem C2_drift_iff_stored_witness :
    ([(⟨[1], 0⟩ : Record)] : Batch) ≠ [] ∧
    detect_drift ⟨[], 0, []⟩ [⟨[1], 0⟩] = (⟨[(0, 1, 0)], 0, []⟩, none) ∧
    ((⟨[(0, 1, 0)], 0, []⟩ : DriftCtx).gauge = 0 ∨
      (⟨[(0, 1, 0)], 0, []⟩ : DriftCtx).gauge = 1) :=
  ⟨by decide, by decide,
    (C2_drift_iff_stored ⟨[], 0, []⟩ [⟨[1], 0⟩] ⟨[(0, 1, 0)], 0, []⟩
      (by decide) (by decide)).2⟩

/-- C2 counterexample: process batches P = [[0, 5]], A = [[0]],
B = [[0, 9]] in order.  While processing B the detector flags drift (the
gauge becomes 1) because the stored statistic at index 1 is a stale value
from P, yet no feature index covered by BOTH consecutive batches A and B
has a mean shift at all - every per-feature mean the previous batch A
defines is unchanged - so the claim, which quantifies over a feature's
previous-batch mean and standard deviation, is false on this input. -/
theorem C2_counterexample :
    (detect_drift (detect_drift (detect_drift ⟨[], 0, []⟩ [⟨[0, 5], 0⟩]).1
        [⟨[0], 0⟩]).1 [⟨[0, 9], 0⟩]).1.gauge = 1 ∧
    ¬ claimC2Cond [⟨[0], 0⟩] [⟨[0, 9], 0⟩] := by
  constructor
  · decide
  · rintro ⟨i, hi2, hi1, h⟩
    have hi0 : i = 0 := Nat.lt_one_iff.mp hi1
    subst hi0
    have hm : qmean (colVals [(⟨[0], 0⟩ : Record)] 0) = 0 := by decide
    have hm2 : qmean (colVals [(⟨[0, 9], 0⟩ : Record)] 0) = 0 := by decide
    have hv : sampleVar (colVals [(⟨[0], 0⟩ : Record)] 0) = 0 := by decide
    rw [hm, hm2, hv] at h
    simp [Real.sqrt_zero] at h
    norm_num at h

/-- C10: the schema-change gauges latch in both variants: each main.py
cycle either leaves `feature_added`/`feature_removed` unchanged or sets
them to 1 (they are never written with any other value, in particular
never reset to 0), and each ml_model.py cycle only ever increments them,
so both are monotonically non-decreasing over any run.  The drift gauge,
by contrast, is rewritten on every successfully processed batch purely
from the current comparison - its new value does not depend on its old
value. -/
theorem C10_gauges_latch (env : Env) (s : MainState) (o : FetchOutcome) (t : MLState)
    (f : MLFetch) (c : DriftCtx) (records : Batch) (c2 : DriftCtx) :
    ((mainCycle env s o).feature_added = s.feature_added ∨
      (mainCycle env s o).feature_added = 1) ∧
    ((mainCycle env s o).feature_removed = s.feature_removed ∨
      (mainCycle env s o).feature_removed = 1) ∧
    t.feature_added ≤ (ml_cycle env t f).1.feature_added ∧
    t.feature_removed ≤ (ml_cycle env t f).1.feature_removed ∧
    (detect_drift c records = (c2, none) →
      c2.gauge = (if (List.range (records.headI).features.length).any
          (checkIdx c.feature_stats records) then 1 else 0)) := by
  refine ⟨?_, ?_, ?_, ?_, fun hok => detect_drift_gauge c records c2 hok⟩
  · rcases o with _ | _ | _ | records2
    · left; rfl
    · left; rfl
    · left; rfl
    · rcases records2 with _ | ⟨r, rs⟩
      · left; rfl
      · have hmb : mainCycle env s (FetchOutcome.payload (r :: rs)) =
            (retrainSection env (mainIngest s (r :: rs))).1 := rfl
        rw [hmb, (retrainSection_preserves env (mainIngest s (r :: rs))).2.1]
        by_cases h0 : s.previous_features_count ≠ 0
        · by_cases hlt : s.previous_features_count < r.features.length
          · right
            simp [mainIngest, h0, hlt]
          · left
            by_cases hgt : r.features.length < s.previous_features_count
            · simp [mainIngest, h0, hlt, hgt]
            · simp [mainIngest, h0, hlt, hgt]
        · left
          simp [mainIngest, h0]
  · rcases o with _ | _ | _ | records2
    · left; rfl
    · left; rfl
    · left; rfl
    · rcases records2 with _ | ⟨r, rs⟩
      · left; rfl
      · have hmb : mainCycle env s (FetchOutcome.payload (r :: rs)) =
            (retrainSection env (mainIngest s (r :: rs))).1 := rfl
        rw [hmb, (retrainSection_preserves env (mainIngest s (r :: rs))).2.2.1]
        by_cases h0 : s.previous_features_count ≠ 0
        · by_cases hlt : s.previous_features_count < r.features.length
          · left
            simp [mainIngest, h0, hlt]
          · by_cases hgt : r.features.length < s.previous_features_count
            · right
              simp [mainIngest, h0, hlt, hgt]
            · left
              simp [mainIngest, h0, hlt, hgt]
        · left
          simp [mainIngest, h0]
  · rcases f with _ | _ | records2
    · exact le_refl _
    · exact le_refl _
    · rcases records2 with _ | ⟨r, rs⟩
      · exact le_refl _
      · exact (ml_cycle_payload_fields env t r rs).2.1
  · rcases f with _ | _ | records2
    · exact le_refl _
    · exact le_refl _
    · rcases records2 with _ | ⟨r, rs⟩
      · exact le_refl _
      · exact (ml_cycle_payload_fields env t r rs).2.2

/-- C10 witness: a 503 cycle leaves the ml gauges unchanged, and a drift
pass over a one-record batch with no stored statistics rewrites the gauge
to 0. -/
theorem C10_gauges_latch_witness :
    detect_drift ⟨[], 0, []⟩ [⟨[2], 0⟩] = (⟨[(0, 2, 0)], 0, []⟩, none) ∧
    (⟨[(0, 2, 0)], 0, []⟩ : DriftCtx).gauge =
      (if (List.range ((([(⟨[2], 0⟩ : Record)] : Batch)).headI).features.length).any
          (checkIdx ((⟨[], 0, []⟩ : DriftCtx).feature_stats) [⟨[2], 0⟩]) then 1 else 0) :=
  ⟨by decide,
    (C10_gauges_latch env0 (mainInit trivialModel) FetchOutcome.status503
        (mlInit trivialModel) MLFetch.status503 ⟨[], 0, []⟩ [⟨[2], 0⟩]
        ⟨[(0, 2, 0)], 0, []⟩).2.2.2.2 (by decide)⟩

end PromLab
